import Mathlib

/-!
Shallow embedding of the TAXII-to-CrowdStrike IOC ingestion pipeline
(src/taxii_to_crowdstrike.py and src/crowdstrike_ioc_ingestor.py).

Python strings are modelled as `List Char`; clock times as natural numbers
counting seconds; HTTP interactions are modelled by passing in the sequence
of responses the remote service returns, one response consumed per request
issued by a loop.  A Python function that can raise is modelled with
`Except Unit`; a Python function that returns `None` on failure is modelled
with `Option`.
-/

namespace TaxiiCS

/-- The single-quote character (code point 39) used by the pattern parser. -/
def quoteChar : Char := Char.ofNat 39

/-- Python `sub in s` substring containment on character lists. -/
def containsSub : List Char → List Char → Bool
  | [], sub => sub.isEmpty
  | c :: rest, sub => sub.isPrefixOf (c :: rest) || containsSub rest sub

/-- Python `s.split(q)` for the single-quote separator: the list of maximal
chunks between occurrences of the quote character. -/
def splitQuote : List Char → List (List Char)
  | [] => [[]]
  | c :: cs =>
    if c = quoteChar then [] :: splitQuote cs
    else
      match splitQuote cs with
      | [] => [[c]]
      | p :: ps => (c :: p) :: ps

/-- `pattern.split(q)[1]`: the chunk after the first quote.  Raises
(`Except.error`) exactly when the pattern contains no quote at all, the
Python `IndexError`. -/
def extractValue (pat : List Char) : Except Unit (List Char) :=
  match splitQuote pat with
  | _ :: v :: _ => Except.ok v
  | _ => Except.error ()

/-- The normalized IOC dictionary built by `transform_stix_to_ioc`
(src/crowdstrike_ioc_ingestor.py lines 97-102). -/
structure Ioc where
  type_ : String
  value : List Char
  action : String
  source : String
deriving DecidableEq, Repr

/-- `transform_stix_to_ioc` (src/crowdstrike_ioc_ingestor.py lines 72-102):
classify the pattern by substring match in fixed priority order, extract the
value as `pattern.split(q)[1]`, or return `none` for unsupported patterns. -/
def transform_stix_to_ioc (pat : List Char) : Except Unit (Option Ioc) :=
  if containsSub pat ("domain-name".data) then
    (extractValue pat).map fun v => some ⟨"domain", v, "detect", "TAXII Import"⟩
  else if containsSub pat ("ipv4-addr".data) then
    (extractValue pat).map fun v => some ⟨"ipv4", v, "detect", "TAXII Import"⟩
  else if containsSub pat ("file:hashes".data) then
    (extractValue pat).map fun v => some ⟨"sha256", v, "detect", "TAXII Import"⟩
  else
    Except.ok none

/-- The priority classification implicit in `transform_stix_to_ioc`, exposed
as the resulting CrowdStrike type string. -/
def classify (pat : List Char) : Option String :=
  if containsSub pat ("domain-name".data) then some "domain"
  else if containsSub pat ("ipv4-addr".data) then some "ipv4"
  else if containsSub pat ("file:hashes".data) then some "sha256"
  else none

/-- A STIX object of a TAXII page: its `type` field and `pattern` field. -/
structure StixObj where
  type_ : String
  pat : List Char
deriving DecidableEq, Repr

/-- One response of the TAXII poll endpoint: HTTP status, `objects` list and
optional `next_token` (src/taxii_to_crowdstrike.py lines 92-110). -/
structure TaxiiPage where
  status : Nat
  objects : List StixObj
  next_token : Option String
deriving DecidableEq, Repr

/-- Python truthiness of an optional cursor string: absent and empty are
falsy (`if not next_token: break`). -/
def cursorPresent : Option String → Bool
  | none => false
  | some t => !(t.isEmpty)

/-- The list comprehension of src/taxii_to_crowdstrike.py line 101:
`[obj[pattern].split(q)[1] for obj in objects if obj[type] == indicator]`,
raising at the first indicator whose pattern has no quote. -/
def extractAll : List StixObj → Except Unit (List (List Char))
  | [] => Except.ok []
  | o :: os =>
    if o.type_ = "indicator" then
      match extractValue o.pat, extractAll os with
      | Except.error e, _ => Except.error e
      | Except.ok _, Except.error e => Except.error e
      | Except.ok v, Except.ok vs => Except.ok (v :: vs)
    else extractAll os

/-- Outcome of `poll_taxii_server`: a normal return of the accumulated IOC
values, an uncaught IndexError, or (a model artifact) exhaustion of the
supplied response sequence while the loop still wants another page. -/
inductive PollResult
  | ok (iocs : List (List Char))
  | exn
  | starved
deriving DecidableEq, Repr

/-- The `while True` pagination loop of `poll_taxii_server`
(src/taxii_to_crowdstrike.py lines 92-112), with `acc` playing `all_iocs`.
A non-200 response breaks the loop and the accumulated list is returned;
otherwise the page's indicator values are appended and the loop continues
exactly when the response carries a truthy `next_token`. -/
def pollLoop (pages : List TaxiiPage) (acc : List (List Char)) : PollResult :=
  match pages with
  | [] => PollResult.starved
  | page :: rest =>
    if page.status ≠ 200 then PollResult.ok acc
    else
      match extractAll page.objects with
      | Except.error _ => PollResult.exn
      | Except.ok iocs =>
        if cursorPresent page.next_token then pollLoop rest (acc ++ iocs)
        else PollResult.ok (acc ++ iocs)

/-- `poll_taxii_server` (src/taxii_to_crowdstrike.py lines 84-112), applied
to the sequence of page responses the server returns. -/
def poll_taxii_server (pages : List TaxiiPage) : PollResult := pollLoop pages []

/-- One response of the CrowdStrike existence-query endpoint: HTTP status,
`resources` list, and the `meta.pagination.next_token` cursor
(src/taxii_to_crowdstrike.py lines 120-135). -/
structure QueryPage where
  status : Nat
  resources : List String
  next_token : Option String
deriving DecidableEq, Repr

/-- `check_ioc_exists_paginated` (src/taxii_to_crowdstrike.py lines
114-137): returns the boolean outcome together with the number of GET
requests issued.  A non-200 page returns `False`; a page with a non-empty
`resources` list returns `True`; an empty page with a truthy cursor
continues; otherwise the loop exhausts with `False`. -/
def check_ioc_exists_paginated : List QueryPage → Bool × Nat
  | [] => (false, 0)
  | p :: rest =>
    if p.status ≠ 200 then (false, 1)
    else if p.resources ≠ [] then (true, 1)
    else if cursorPresent p.next_token then
      let r := check_ioc_exists_paginated rest
      (r.fst, r.snd + 1)
    else (false, 1)

/-- `calculate_expiration_date` (src/taxii_to_crowdstrike.py lines 139-142):
`utcnow + timedelta(days=90)`, in seconds. -/
def calculate_expiration_date (now : Nat) : Nat := now + 90 * 86400

/-- HTTP method of a push request: POST creates, PATCH updates. -/
inductive Method
  | post
  | patch
deriving DecidableEq, Repr

/-- The JSON body sent to the create/update endpoint
(src/taxii_to_crowdstrike.py lines 155-161 and 165-171). -/
structure IocPayload where
  type_ : String
  value : List Char
  action : String
  valid_until : Nat
  source : String
deriving DecidableEq, Repr

/-- The body of the `for ioc in iocs` loop of `push_iocs_to_crowdstrike`
(src/taxii_to_crowdstrike.py lines 149-178) for a single IOC value: compute
the expiration date, run the paginated existence check against the supplied
query responses, and issue one PATCH (if found) or POST (if not) request.
Returns the issued request and the number of existence-query requests. -/
def process_ioc (pages : List QueryPage) (now : Nat) (ioc : List Char) :
    (Method × IocPayload) × Nat :=
  let expiration_date := calculate_expiration_date now
  let checked := check_ioc_exists_paginated pages
  if checked.fst then
    ((Method.patch, ⟨"domain", ioc, "detect", expiration_date, "TAXII Import"⟩), checked.snd)
  else
    ((Method.post, ⟨"domain", ioc, "detect", expiration_date, "TAXII Import"⟩), checked.snd)

/-- The observable effect of the reconciliation stage: how many
existence-query GETs were issued, which create/update requests were sent in
order, and how many per-item rate-limit pauses elapsed. -/
structure Trace where
  queries : Nat
  pushes : List (Method × IocPayload)
  pauses : Nat
deriving DecidableEq, Repr

/-- The `for` loop of `push_iocs_to_crowdstrike`: `env i` is the sequence of
existence-query responses for the `i`-th item and `clock i` the UTC time
when the `i`-th item is processed.  One rate-limit pause follows every
item. -/
def pushLoop (env : Nat → List QueryPage) (clock : Nat → Nat) :
    List (List Char) → Nat → Trace
  | [], _ => ⟨0, [], 0⟩
  | ioc :: rest, i =>
    let r := process_ioc (env i) (clock i) ioc
    let t := pushLoop env clock rest (i + 1)
    ⟨r.snd + t.queries, r.fst :: t.pushes, t.pauses + 1⟩

/-- `push_iocs_to_crowdstrike` (src/taxii_to_crowdstrike.py lines 144-178). -/
def push_iocs_to_crowdstrike (env : Nat → List QueryPage) (clock : Nat → Nat)
    (iocs : List (List Char)) : Trace :=
  pushLoop env clock iocs 0

/-- The reconciliation gate of `main` (src/taxii_to_crowdstrike.py lines
188-191): `iocs = retry(poll_taxii_server)` may be a list or `None`, and
`if iocs:` enters the push stage only for a truthy (non-empty) list. -/
def main_reconcile (env : Nat → List QueryPage) (clock : Nat → Nat)
    (iocsOpt : Option (List (List Char))) : Trace :=
  match iocsOpt with
  | none => ⟨0, [], 0⟩
  | some iocs => if iocs.isEmpty then ⟨0, [], 0⟩ else push_iocs_to_crowdstrike env clock iocs

/-- `retry` (src/taxii_to_crowdstrike.py lines 47-60), with the wrapped
call modelled as `op : Nat → Except Unit A` giving the outcome of the n-th
attempt (`Except.error` models a raised exception, `Except.ok` any normal
return).  The fuel argument counts the remaining iterations of
`while n <= MAX_RETRIES`; the recorded list collects the sleep durations.
Returns `none` exactly when the loop exhausts, since the Python function
falls through to `return None`. -/
def retryGo {A : Type} (op : Nat → Except Unit A) :
    Nat → Nat → Nat → List Nat → Option A × List Nat
  | 0, _, _, sleeps => (none, sleeps)
  | fuel + 1, n, delay, sleeps =>
    match op n with
    | Except.ok v => (some v, sleeps)
    | Except.error _ => retryGo op fuel (n + 1) (delay * 2) (sleeps ++ [delay])

/-- `retry` with `MAX_RETRIES = 3`, first attempt numbered 1, initial delay
5 seconds. -/
def retry {A : Type} (op : Nat → Except Unit A) : Option A × List Nat :=
  retryGo op 3 1 5 []

/-- A response of the OAuth2 token endpoint: HTTP status, the optional
`access_token` field of the JSON body, and the raw body text. -/
structure AuthResponse where
  status : Nat
  access_token : Option String
  text : String
deriving DecidableEq, Repr

/-- `get_crowdstrike_token` (src/taxii_to_crowdstrike.py lines 67-82):
on status 200 it returns `response.json().get(access_token)` (possibly
`None`, with no error logged); otherwise it returns `None` after logging
the status code and body.  The second component is the logged error. -/
def get_crowdstrike_token (resp : AuthResponse) :
    Option String × Option (Nat × String) :=
  if resp.status = 200 then (resp.access_token, none)
  else (none, some (resp.status, resp.text))

/-- `get_crowdstrike_token` of the legacy script
(src/crowdstrike_ioc_ingestor.py lines 17-37): on status 200 it indexes
`response.json()[access_token]`, raising a KeyError when the field is
missing; otherwise it prints the error and returns `None`. -/
def get_crowdstrike_token_legacy (resp : AuthResponse) :
    Except Unit (Option String) :=
  if resp.status = 200 then
    match resp.access_token with
    | some t => Except.ok (some t)
    | none => Except.error ()
  else Except.ok none

end TaxiiCS
namespace TaxiiCS

theorem splitQuote_no_quote (a : List Char) (h : quoteChar ∉ a) : splitQuote a = [a] := by
  induction a with
  | nil => rfl
  | cons c a ih =>
    have hc : ¬ c = quoteChar := fun hc => h (hc ▸ List.mem_cons_self c a)
    have ha : quoteChar ∉ a := fun hm => h (List.mem_cons_of_mem c hm)
    simp [splitQuote, hc, ih ha]

theorem splitQuote_append (a rest : List Char) (h : quoteChar ∉ a) :
    splitQuote (a ++ quoteChar :: rest) = a :: splitQuote rest := by
  induction a with
  | nil => simp [splitQuote]
  | cons c a ih =>
    have hc : ¬ c = quoteChar := fun hc => h (hc ▸ List.mem_cons_self c a)
    have ha : quoteChar ∉ a := fun hm => h (List.mem_cons_of_mem c hm)
    simp [splitQuote, hc, ih ha]

theorem extractValue_no_quote (a : List Char) (h : quoteChar ∉ a) :
    extractValue a = Except.error () := by
  simp [extractValue, splitQuote_no_quote a h]

theorem extractValue_one_quote (a b : List Char) (ha : quoteChar ∉ a) (hb : quoteChar ∉ b) :
    extractValue (a ++ quoteChar :: b) = Except.ok b := by
  simp [extractValue, splitQuote_append a b ha, splitQuote_no_quote b hb]

theorem extractValue_two_quotes (a v b : List Char) (ha : quoteChar ∉ a) (hv : quoteChar ∉ v) :
    extractValue (a ++ quoteChar :: v ++ quoteChar :: b) = Except.ok v := by
  simp [extractValue, splitQuote_append a _ ha, splitQuote_append v b hv]

theorem transform_classify (pat : List Char) (t : String) (h : classify pat = some t) :
    transform_stix_to_ioc pat =
      (extractValue pat).map fun v => some ⟨t, v, "detect", "TAXII Import"⟩ := by
  unfold classify at h
  unfold transform_stix_to_ioc
  split_ifs at h ⊢ <;> simp_all

end TaxiiCS
namespace TaxiiCS

/-- Claim C7: for every pattern containing one of the supported keywords and
a single-quoted value, Parse returns a record whose value equals the text
between the first and second single quote of the pattern and whose kind
follows the fixed priority order domain-name, then ipv4-addr, then
file:hashes, the first match winning even if several keywords occur. -/
theorem C7_parse_keywords (pat a v b : List Char)
    (hp : pat = a ++ quoteChar :: v ++ quoteChar :: b)
    (ha : quoteChar ∉ a) (hv : quoteChar ∉ v) :
    (containsSub pat ("domain-name".data) = true →
      transform_stix_to_ioc pat = Except.ok (some ⟨"domain", v, "detect", "TAXII Import"⟩))
    ∧ (containsSub pat ("domain-name".data) = false →
       containsSub pat ("ipv4-addr".data) = true →
      transform_stix_to_ioc pat = Except.ok (some ⟨"ipv4", v, "detect", "TAXII Import"⟩))
    ∧ (containsSub pat ("domain-name".data) = false →
       containsSub pat ("ipv4-addr".data) = false →
       containsSub pat ("file:hashes".data) = true →
      transform_stix_to_ioc pat = Except.ok (some ⟨"sha256", v, "detect", "TAXII Import"⟩)) := by
  have hx : extractValue pat = Except.ok v := by
    rw [hp]; exact extractValue_two_quotes a v b ha hv
  refine ⟨fun h1 => ?_, fun h1 h2 => ?_, fun h1 h2 h3 => ?_⟩
  · unfold transform_stix_to_ioc
    rw [if_pos h1, hx]
    rfl
  · unfold transform_stix_to_ioc
    rw [if_neg (by simp [h1]), if_pos h2, hx]
    rfl
  · unfold transform_stix_to_ioc
    rw [if_neg (by simp [h1]), if_neg (by simp [h2]), if_pos h3, hx]
    rfl

/-- Witness for C7 at a concrete domain pattern. -/
theorem C7_parse_keywords_witness :
    transform_stix_to_ioc
        ("[domain-name:value = ".data ++ quoteChar :: "example.com".data ++ quoteChar :: "]".data)
      = Except.ok (some ⟨"domain", "example.com".data, "detect", "TAXII Import"⟩) :=
  (C7_parse_keywords _ ("[domain-name:value = ".data) ("example.com".data) ("]".data)
    rfl (by decide) (by decide)).1 (by decide)

/-- Counterexample to claim C3: a pattern containing the domain keyword but
no single quote makes Parse raise an IndexError rather than discard, and a
pattern with exactly one single quote yields a record carrying the garbage
suffix after the quote rather than being discarded. -/
theorem C3_counterexample :
    transform_stix_to_ioc ("[domain-name:value = example.com]".data) = Except.error ()
    ∧ transform_stix_to_ioc ("[domain-name:value = ".data ++ quoteChar :: "example.com]".data)
        = Except.ok (some ⟨"domain", "example.com]".data, "detect", "TAXII Import"⟩) :=
  ⟨by rfl, by rfl⟩

/-- Claim C3 as amended: for a pattern matching a supported keyword, if the
pattern contains no single quote at all then Parse raises an index error,
and if it contains exactly one single quote then Parse returns a record
whose value is the whole text after that quote; in neither case is the
record discarded. -/
theorem C3_no_closing_quote (pat a b : List Char) (t : String)
    (hmatch : classify pat = some t) :
    (quoteChar ∉ pat → transform_stix_to_ioc pat = Except.error ())
    ∧ (pat = a ++ quoteChar :: b → quoteChar ∉ a → quoteChar ∉ b →
        transform_stix_to_ioc pat = Except.ok (some ⟨t, b, "detect", "TAXII Import"⟩)) := by
  constructor
  · intro hq
    rw [transform_classify pat t hmatch, extractValue_no_quote pat hq]
    rfl
  · intro hpat ha hb
    subst hpat
    rw [transform_classify _ t hmatch, extractValue_one_quote a b ha hb]
    rfl

/-- Witness for C3 as amended, at a one-quote ipv4 pattern. -/
theorem C3_no_closing_quote_witness :
    transform_stix_to_ioc ("[ipv4-addr:value = ".data ++ quoteChar :: "1.2.3.4]".data)
      = Except.ok (some ⟨"ipv4", "1.2.3.4]".data, "detect", "TAXII Import"⟩) :=
  (C3_no_closing_quote _ ("[ipv4-addr:value = ".data) ("1.2.3.4]".data) "ipv4"
    (by decide)).2 rfl (by decide) (by decide)

/-- A file-hash pattern whose normalized record has kind sha256. -/
def patFileHash : List Char :=
  "[file:hashes = ".data ++ quoteChar :: "deadbeef".data ++ quoteChar :: "]".data

/-- Counterexample to claim C1: the transformer normalizes this pattern to a
record of kind sha256, yet the create/update payload built by the
reconciliation loop for its value carries the fixed type string domain. -/
theorem C1_counterexample :
    transform_stix_to_ioc patFileHash
      = Except.ok (some ⟨"sha256", "deadbeef".data, "detect", "TAXII Import"⟩)
    ∧ (process_ioc [] 0 ("deadbeef".data)).fst.snd.type_ = "domain"
    ∧ ("domain" : String) ≠ "sha256" :=
  ⟨by rfl, by rfl, by decide⟩

/-- Claim C1 as amended: the payload of every create or update request
built by the reconciliation loop carries the item's value together with the
fixed fields: the type field is always the constant domain regardless of
the indicator's kind, action is detect, source is TAXII Import, and
valid_until is 90 days past the processing time. -/
theorem C1_fixed_type_field (pages : List QueryPage) (now : Nat) (ioc : List Char) :
    (process_ioc pages now ioc).fst.snd =
      ⟨"domain", ioc, "detect", now + 90 * 86400, "TAXII Import"⟩ := by
  cases h : (check_ioc_exists_paginated pages).fst <;>
    simp [process_ioc, calculate_expiration_date, h]

end TaxiiCS
namespace TaxiiCS

theorem extractAll_append (xs ys : List StixObj) :
    extractAll (xs ++ ys) =
      match extractAll xs, extractAll ys with
      | Except.error e, _ => Except.error e
      | Except.ok _, Except.error e => Except.error e
      | Except.ok a, Except.ok b => Except.ok (a ++ b) := by
  induction xs with
  | nil =>
    simp only [List.nil_append, extractAll]
    cases extractAll ys <;> rfl
  | cons o os ih =>
    simp only [List.cons_append, extractAll, List.append_eq]
    by_cases h : o.type_ = "indicator"
    · rw [if_pos h, if_pos h, ih]
      cases extractValue o.pat <;> cases extractAll os <;> cases extractAll ys <;> rfl
    · rw [if_neg h, if_neg h, ih]

theorem pollLoop_good_append (good tail : List TaxiiPage) (acc : List (List Char))
    (hg : ∀ p ∈ good, p.status = 200 ∧ cursorPresent p.next_token = true) :
    pollLoop (good ++ tail) acc =
      match extractAll ((good.map TaxiiPage.objects).flatten) with
      | Except.error _ => PollResult.exn
      | Except.ok l => pollLoop tail (acc ++ l) := by
  induction good generalizing acc with
  | nil => simp [extractAll]
  | cons p good ih =>
    obtain ⟨hs, hc⟩ := hg p (List.mem_cons_self p good)
    have hg' : ∀ q ∈ good, q.status = 200 ∧ cursorPresent q.next_token = true :=
      fun q hq => hg q (List.mem_cons_of_mem p hq)
    have hs' : ¬ p.status ≠ 200 := by simp [hs]
    cases hobj : extractAll p.objects with
    | error e =>
      simp only [List.cons_append, List.map_cons, List.flatten_cons, extractAll_append,
        pollLoop, if_neg hs', hobj]
    | ok iocs =>
      simp only [List.cons_append, List.map_cons, List.flatten_cons, extractAll_append,
        pollLoop, if_neg hs', hobj, if_pos hc, List.append_eq]
      rw [ih (acc ++ iocs) hg']
      cases extractAll ((good.map TaxiiPage.objects).flatten) with
      | error e => rfl
      | ok l => simp

/-- Claim C8: for every nonempty finite sequence of status-200 pages in
which every page except the last carries a continuation cursor and the last
does not, the polling loop terminates by returning, and it yields exactly
the values extracted from the indicator-type objects of all pages
concatenated in page order and within-page order (propagating the
extraction exception if and only if some indicator pattern has no quote). -/
theorem C8_pagination (init : List TaxiiPage) (last : TaxiiPage)
    (hs : ∀ p ∈ init ++ [last], p.status = 200)
    (hc : ∀ p ∈ init, cursorPresent p.next_token = true)
    (hl : cursorPresent last.next_token = false) :
    poll_taxii_server (init ++ [last]) =
      match extractAll (((init ++ [last]).map TaxiiPage.objects).flatten) with
      | Except.error _ => PollResult.exn
      | Except.ok l => PollResult.ok l := by
  have hg : ∀ p ∈ init, p.status = 200 ∧ cursorPresent p.next_token = true :=
    fun p hp => ⟨hs p (List.mem_append_left _ hp), hc p hp⟩
  have hlast : last.status = 200 := hs last (List.mem_append_right _ (List.mem_singleton.mpr rfl))
  have hlast' : ¬ last.status ≠ 200 := by simp [hlast]
  rw [poll_taxii_server, pollLoop_good_append init [last] [] hg]
  simp only [List.map_append, List.map_cons, List.map_nil, List.flatten_append,
    List.flatten_cons, List.flatten_nil, List.append_nil, extractAll_append]
  cases extractAll ((init.map TaxiiPage.objects).flatten) with
  | error e => rfl
  | ok l =>
    cases hobj : extractAll last.objects with
    | error e => simp only [pollLoop, if_neg hlast', hobj]
    | ok l2 => simp only [pollLoop, if_neg hlast', hobj, hl]; simp [hl]

/-- The STIX objects and pages used by the concrete poll scenarios. -/
def objDomain : StixObj :=
  ⟨"indicator", "[domain-name:value = ".data ++ quoteChar :: "example.com".data ++ quoteChar :: "]".data⟩

def objHash : StixObj :=
  ⟨"indicator", "[file:hashes = ".data ++ quoteChar :: "deadbeef".data ++ quoteChar :: "]".data⟩

def objReport : StixObj := ⟨"report", "not an indicator".data⟩

def pageW1 : TaxiiPage := ⟨200, [objDomain], some "cursor1"⟩

def pageW2 : TaxiiPage := ⟨200, [objHash, objReport], none⟩

def pageFail : TaxiiPage := ⟨500, [], none⟩

/-- Witness for C8: a two-page feed yields the two indicator values in
order, while the non-indicator object is ignored. -/
theorem C8_pagination_witness :
    poll_taxii_server ([pageW1] ++ [pageW2]) = PollResult.ok ["example.com".data, "deadbeef".data] :=
  (C8_pagination [pageW1] pageW2 (by decide) (by decide) (by decide)).trans (by rfl)

/-- Counterexample to claim C2: with a successful first page holding one
indicator and a failing second page, the poll returns the indicator of the
first page as a normal result, so the accumulated earlier indicators are
kept, not discarded, and no error reaches the caller. -/
theorem C2_counterexample :
    poll_taxii_server [pageW1, pageFail] = PollResult.ok ["example.com".data] := by rfl

/-- Claim C2 as amended: at the first non-success page the poll stops
requesting further pages, but it returns the indicators accumulated from
the earlier successful pages as a normal result and surfaces no error to
its caller; the caller cannot distinguish this truncated outcome from a
successful complete poll. -/
theorem C2_partial_on_failure (good : List TaxiiPage) (bad : TaxiiPage)
    (rest : List TaxiiPage) (iocs : List (List Char))
    (hg : ∀ p ∈ good, p.status = 200 ∧ cursorPresent p.next_token = true)
    (hb : bad.status ≠ 200)
    (hx : extractAll ((good.map TaxiiPage.objects).flatten) = Except.ok iocs) :
    poll_taxii_server (good ++ bad :: rest) = PollResult.ok iocs := by
  rw [poll_taxii_server, pollLoop_good_append good (bad :: rest) [] hg, hx]
  simp [pollLoop, hb]

/-- Witness for C2 as amended: one good page then a 500 page returns the
good page's indicator normally. -/
theorem C2_partial_on_failure_witness :
    poll_taxii_server ([pageW1] ++ pageFail :: []) = PollResult.ok ["example.com".data] :=
  C2_partial_on_failure [pageW1] pageFail [] ["example.com".data]
    (by decide) (by decide) (by rfl)

end TaxiiCS
namespace TaxiiCS

/-- Counterexample to claim C4: an operation that signals failure through
its return value (the Python function returning None) is not retried and
triggers no backoff wait: retry hands the None back after the first
attempt with an empty list of sleeps. -/
theorem C4_counterexample :
    retry (fun _ => Except.ok (none : Option Nat)) = (some none, []) := rfl

/-- Claim C4 as amended: only a raised fault triggers the backoff; an
operation that raises twice and then succeeds yields the success value
after waits of 5 and 10 seconds; one that raises on all three attempts
yields None after waits of 5, 10 and then a final 20 seconds, with no
exception escaping; and any normally returned value, error-signalling or
not, is handed back after the first attempt with no wait. -/
theorem C4_retry_behavior {A : Type} (op : Nat → Except Unit A) (v : A) :
    (op 1 = Except.error () → op 2 = Except.error () → op 3 = Except.ok v →
      retry op = (some v, [5, 10]))
    ∧ (op 1 = Except.error () → op 2 = Except.error () → op 3 = Except.error () →
      retry op = (none, [5, 10, 20]))
    ∧ (op 1 = Except.ok v → retry op = (some v, [])) := by
  refine ⟨fun h1 h2 h3 => ?_, fun h1 h2 h3 => ?_, fun h1 => ?_⟩
  · simp [retry, retryGo, h1, h2, h3]
  · simp [retry, retryGo, h1, h2, h3]
  · simp [retry, retryGo, h1]

/-- Witness for C4 as amended: a call failing twice then succeeding
returns the success value having slept 5 then 10 seconds. -/
theorem C4_retry_behavior_witness :
    retry (fun n => if 3 ≤ n then Except.ok 7 else Except.error ()) = (some 7, [5, 10]) :=
  (C4_retry_behavior (fun n => if 3 ≤ n then Except.ok 7 else Except.error ()) 7).1
    rfl rfl rfl

/-- Counterexample to claim C5: a status-200 authentication response with
no access_token field yields no token but also no logged error carrying
the status and body (the main script even logs success); the legacy script
raises a KeyError on the same response instead of failing with a
diagnostic error value. -/
theorem C5_counterexample :
    get_crowdstrike_token ⟨200, none, "empty body"⟩ = (none, none)
    ∧ get_crowdstrike_token_legacy ⟨200, none, "empty body"⟩ = Except.error () :=
  ⟨rfl, rfl⟩

/-- Claim C5 as amended: a token is returned only for a status-200 response
carrying the access_token field; any non-200 status fails with a logged
error carrying the status code and response body; but a 200 response
missing the field returns no token silently, with no diagnostic error (and
the legacy variant raises a KeyError there). -/
theorem C5_token_only_on_200 (resp : AuthResponse) :
    (∀ t, (get_crowdstrike_token resp).fst = some t →
      resp.status = 200 ∧ resp.access_token = some t)
    ∧ (resp.status ≠ 200 →
      get_crowdstrike_token resp = (none, some (resp.status, resp.text)))
    ∧ (resp.status = 200 → resp.access_token = none →
      get_crowdstrike_token resp = (none, none)
      ∧ get_crowdstrike_token_legacy resp = Except.error ()) := by
  refine ⟨?_, ?_, ?_⟩
  · intro t ht
    unfold get_crowdstrike_token at ht
    by_cases h : resp.status = 200
    · rw [if_pos h] at ht
      exact ⟨h, ht⟩
    · rw [if_neg h] at ht
      simp at ht
  · intro h
    unfold get_crowdstrike_token
    rw [if_neg h]
  · intro h hnone
    unfold get_crowdstrike_token get_crowdstrike_token_legacy
    rw [if_pos h, if_pos h, hnone]
    exact ⟨rfl, rfl⟩

/-- Witness for C5 as amended: a 404 response fails carrying its status
and body. -/
theorem C5_token_only_on_200_witness :
    get_crowdstrike_token ⟨404, none, "denied"⟩ = (none, some (404, "denied")) :=
  (C5_token_only_on_200 ⟨404, none, "denied"⟩).2.1 (by decide)

/-- Claim C6: an item whose existence check succeeds is updated with a
PATCH and one whose check fails is created with a POST (one request either
way), and in both cases the payload's valid_until is exactly 90 days after
the time the item is processed. -/
theorem C6_upsert_decision (pages : List QueryPage) (now : Nat) (ioc : List Char) :
    ((check_ioc_exists_paginated pages).fst = true →
      (process_ioc pages now ioc).fst.fst = Method.patch)
    ∧ ((check_ioc_exists_paginated pages).fst = false →
      (process_ioc pages now ioc).fst.fst = Method.post)
    ∧ (process_ioc pages now ioc).fst.snd.valid_until = now + 90 * 86400 := by
  refine ⟨fun h => ?_, fun h => ?_, ?_⟩
  · simp [process_ioc, h]
  · simp [process_ioc, h]
  · cases h : (check_ioc_exists_paginated pages).fst <;>
      simp [process_ioc, calculate_expiration_date, h]

/-- Witness for C6: a query page reporting a hit leads to PATCH, an
exhausted query leads to POST. -/
theorem C6_upsert_decision_witness :
    (process_ioc [⟨200, ["hit"], none⟩] 0 ("a".data)).fst.fst = Method.patch
    ∧ (process_ioc [] 0 ("a".data)).fst.fst = Method.post :=
  ⟨(C6_upsert_decision [⟨200, ["hit"], none⟩] 0 ("a".data)).1 (by decide),
   (C6_upsert_decision [] 0 ("a".data)).2.1 (by decide)⟩

theorem check_false_of_bad (good : List QueryPage) (bad : QueryPage) (rest : List QueryPage)
    (hg : ∀ p ∈ good, p.status = 200 ∧ p.resources = [] ∧ cursorPresent p.next_token = true)
    (hb : bad.status ≠ 200) :
    (check_ioc_exists_paginated (good ++ bad :: rest)).fst = false := by
  induction good with
  | nil => simp [check_ioc_exists_paginated, hb]
  | cons p good ih =>
    obtain ⟨h1, h2, h3⟩ := hg p (List.mem_cons_self p good)
    have hg' : ∀ q ∈ good, q.status = 200 ∧ q.resources = [] ∧ cursorPresent q.next_token = true :=
      fun q hq => hg q (List.mem_cons_of_mem p hq)
    have h1' : ¬ p.status ≠ 200 := by simp [h1]
    have h2' : ¬ p.resources ≠ [] := by simp [h2]
    simp only [List.cons_append, check_ioc_exists_paginated, if_neg h1', if_neg h2', if_pos h3]
    exact ih hg'

theorem pushLoop_length (env : Nat → List QueryPage) (clock : Nat → Nat)
    (iocs : List (List Char)) (i : Nat) :
    (pushLoop env clock iocs i).pushes.length = iocs.length := by
  induction iocs generalizing i with
  | nil => rfl
  | cons x xs ih => simp [pushLoop, ih]

/-- Claim C9: a non-success response at any page of the existence query
makes the check resolve as not found (False) for that item rather than
raising, and the push loop still issues exactly one create-or-update
request per item, so processing of the remaining items continues. -/
theorem C9_query_failure_not_found (good : List QueryPage) (bad : QueryPage)
    (rest : List QueryPage)
    (hg : ∀ p ∈ good, p.status = 200 ∧ p.resources = [] ∧ cursorPresent p.next_token = true)
    (hb : bad.status ≠ 200) :
    (check_ioc_exists_paginated (good ++ bad :: rest)).fst = false
    ∧ ∀ env clock iocs,
        (push_iocs_to_crowdstrike env clock iocs).pushes.length = iocs.length :=
  ⟨check_false_of_bad good bad rest hg hb,
   fun env clock iocs => pushLoop_length env clock iocs 0⟩

/-- Witness for C9: a 500 query response resolves as not found and a
two-item batch still issues two push requests. -/
theorem C9_query_failure_not_found_witness :
    (check_ioc_exists_paginated [⟨500, [], none⟩]).fst = false
    ∧ (push_iocs_to_crowdstrike (fun _ => []) (fun _ => 0) ["a".data, "b".data]).pushes.length = 2 := by
  have h := C9_query_failure_not_found [] ⟨500, [], none⟩ [] (by simp) (by decide)
  exact ⟨h.1, h.2 (fun _ => []) (fun _ => 0) ["a".data, "b".data]⟩

/-- Claim C10: when polling yields an empty IOC list, the reconciliation
stage is never entered: no existence-query GET, no create or update
request, and no per-item rate-limit pause is produced, leaving the target
store untouched; the push loop itself is also inert on an empty list. -/
theorem C10_empty_iocs_frame (env : Nat → List QueryPage) (clock : Nat → Nat) :
    main_reconcile env clock (some []) = ⟨0, [], 0⟩
    ∧ push_iocs_to_crowdstrike env clock [] = ⟨0, [], 0⟩ :=
  ⟨rfl, rfl⟩

end TaxiiCS
